import Mathlib

/-!
Verification of the inventory/ledger core of `finanzas.py`.

The Python source keeps its state in four SQLite tables (`productos`,
`ventas`, `compras`, `capital_inversion`).  We embed that state as a Lean
structure and each core operation (`registrar_venta`, `registrar_compra`,
`agregar_producto`, `eliminar_producto`, `actualizar_capital`) as a pure
function returning `Except Err (result × State)`; a returned `.error`
corresponds to the Python function returning `(False, message)` after a
rollback, so the caller's state is unchanged in that case.

SQLite `REAL` money columns are modelled as `Rat` (exact arithmetic on the
decimal inputs the app feeds in), `INTEGER` columns as `Int`, ISO date
strings as `Nat` day numbers (string comparison on ISO dates agrees with
day order).  The `CHECK` constraints declared in `init_database`
(`stock >= 0`, `vendidos > 0`, `mermas >= 0`, `cantidad > 0`,
`costo_unitario >= 0`, `total >= 0`, `efectivo >= 0`, `transferencia >= 0`)
are enforced by SQLite on every INSERT/UPDATE; a violation raises
`sqlite3.IntegrityError`, which every operation catches and turns into a
rolled-back failure.  The embedding models those constraint checks
explicitly at each write.  SQLite foreign keys are OFF by default (the code
never issues `PRAGMA foreign_keys`), so the declared FOREIGN KEY clauses
are not enforced; the embedding accordingly does not enforce them.
-/

namespace Finanzas

/-- Python's `str.strip()` on the character list: drop leading and
trailing whitespace. -/
def stripChars (l : List Char) : List Char :=
  ((l.dropWhile Char.isWhitespace).reverse.dropWhile Char.isWhitespace).reverse

/-- Python's `nombre.strip()`. -/
def strip (s : String) : String :=
  { data := stripChars s.data }

/-- Payment method.  The UI offers exactly `Efectivo` and `Transferencia`
(`st.radio(["Efectivo", "Transferencia"])`); `registrar_compra` branches on
`metodo_pago == "Efectivo"` and treats every other value as the transfer
bucket, so the two-constructor type is faithful for all reachable calls. -/
inductive Metodo where
  | efectivo
  | transferencia
deriving DecidableEq

/-- A row of the `productos` table: `(id, nombre, costo, venta, stock)`. -/
structure Producto where
  id : Int
  nombre : String
  costo : Rat
  venta : Rat
  stock : Int
deriving DecidableEq

/-- A row of the `ventas` table: `(fecha, producto_id, vendidos, mermas, metodo)`. -/
structure Venta where
  fecha : Nat
  producto_id : Int
  vendidos : Int
  mermas : Int
  metodo : Metodo
deriving DecidableEq

/-- A row of the `compras` table:
`(fecha, producto_id, cantidad, costo_unitario, total, metodo_pago)`. -/
structure Compra where
  fecha : Nat
  producto_id : Int
  cantidad : Int
  costo_unitario : Rat
  total : Rat
  metodo_pago : Metodo
deriving DecidableEq

/-- The single logical row of `capital_inversion`: `init_database` inserts
one row and every later write updates the row with the greatest id, so one
record suffices. -/
structure Capital where
  efectivo : Rat
  transferencia : Rat
  fecha_actualizacion : Nat
deriving DecidableEq

/-- The whole persistent store. -/
structure State where
  productos : List Producto
  ventas : List Venta
  compras : List Compra
  capital : Capital
deriving DecidableEq

/-- Failure outcomes.  In Python every operation returns
`(False, message)`; the constructors record which branch produced the
message and the datum interpolated into it.  `checkViolation` stands for a
`sqlite3.IntegrityError` raised by a `CHECK` constraint and caught by the
operation's generic handler. -/
inductive Err where
  | notFound
  | insufficientStock (available : Int)
  | insufficientCapital (available : Rat)
  | validation
  | duplicateName
  | referentialIntegrity
  | checkViolation
deriving DecidableEq

/-- The capital bucket matching a payment method, as read by
`obtener_capital_actual` and branched on in `registrar_compra`. -/
def bucket (c : Capital) (m : Metodo) : Rat :=
  match m with
  | .efectivo => c.efectivo
  | .transferencia => c.transferencia

/-- The capital row after `registrar_compra` debits `total` from the bucket
matching `m` (the UPDATE also stamps `fecha_actualizacion`). -/
def debit (c : Capital) (m : Metodo) (total : Rat) (today : Nat) : Capital :=
  match m with
  | .efectivo => { c with efectivo := c.efectivo - total, fecha_actualizacion := today }
  | .transferencia => { c with transferencia := c.transferencia - total, fecha_actualizacion := today }

/-- `registrar_venta(producto_id, cantidad, mermas, metodo)` from
`finanzas.py`: look up the product's stock (a missing product makes
`fetchone()[0]` raise, caught as a rolled-back failure); reject if
`cantidad > stock_actual`; otherwise INSERT the sale row dated today
(CHECK `vendidos > 0`, `mermas >= 0`) and UPDATE the stock to
`stock_actual - cantidad` (CHECK `stock >= 0`); commit and return the new
stock. -/
def registrar_venta (s : State) (producto_id cantidad mermas : Int)
    (metodo : Metodo) (today : Nat) : Except Err (Int × State) :=
  match s.productos.find? (fun p => p.id == producto_id) with
  | none => .error .notFound
  | some p =>
    if p.stock < cantidad then
      .error (.insufficientStock p.stock)
    else if ¬ (0 < cantidad ∧ 0 ≤ mermas) then
      .error .checkViolation
    else if p.stock - cantidad < 0 then
      .error .checkViolation
    else
      .ok (p.stock - cantidad,
        { s with
          ventas := s.ventas ++ [{ fecha := today, producto_id := producto_id,
                                   vendidos := cantidad, mermas := mermas, metodo := metodo }],
          productos := s.productos.map fun q =>
            if q.id == producto_id then { q with stock := p.stock - cantidad } else q })

/-- `registrar_compra(producto_id, cantidad, costo_unitario, metodo_pago)`
from `finanzas.py`: compute `total = cantidad * costo_unitario`; reject if
the capital bucket for `metodo_pago` is below `total`; INSERT the purchase
row (CHECK `cantidad > 0`, `costo_unitario >= 0`, `total >= 0`); look up
the product's stock (missing product raises, rolled back); UPDATE stock to
`stock + cantidad` (CHECK `stock >= 0`); UPDATE the capital row debiting
the bucket (CHECK `efectivo >= 0` and `transferencia >= 0` on the updated
row); commit and return the new stock and the total spent.  The rollback
on any raise makes the Python insert-then-lookup order equivalent to this
sequencing of checks. -/
def registrar_compra (s : State) (producto_id cantidad : Int) (costo_unitario : Rat)
    (metodo_pago : Metodo) (today : Nat) : Except Err ((Int × Rat) × State) :=
  if bucket s.capital metodo_pago < (cantidad : Rat) * costo_unitario then
    .error (.insufficientCapital (bucket s.capital metodo_pago))
  else if ¬ (0 < cantidad ∧ 0 ≤ costo_unitario ∧ 0 ≤ (cantidad : Rat) * costo_unitario) then
    .error .checkViolation
  else
    match s.productos.find? (fun p => p.id == producto_id) with
    | none => .error .notFound
    | some p =>
      if p.stock + cantidad < 0 then
        .error .checkViolation
      else if (debit s.capital metodo_pago ((cantidad : Rat) * costo_unitario) today).efectivo < 0 ∨
          (debit s.capital metodo_pago ((cantidad : Rat) * costo_unitario) today).transferencia < 0 then
        .error .checkViolation
      else
        .ok ((p.stock + cantidad, (cantidad : Rat) * costo_unitario),
          { s with
            compras := s.compras ++ [{ fecha := today, producto_id := producto_id,
                                       cantidad := cantidad, costo_unitario := costo_unitario,
                                       total := (cantidad : Rat) * costo_unitario,
                                       metodo_pago := metodo_pago }],
            productos := s.productos.map fun q =>
              if q.id == producto_id then { q with stock := p.stock + cantidad } else q,
            capital := debit s.capital metodo_pago ((cantidad : Rat) * costo_unitario) today })

/-- `agregar_producto(nombre, costo, venta, stock)` from `finanzas.py`:
explicit validation (`nombre.strip()` non-empty, `costo >= 0`,
`venta >= 0`, `venta >= costo`), then INSERT of the trimmed name.  A
`sqlite3.IntegrityError` (UNIQUE on `nombre`, or the `CHECK(stock >= 0)`
column constraint) is caught and reported with the duplicate-name message,
so both feed the `.duplicateName` branch here.  The AUTOINCREMENT id is
passed in as `nextId`. -/
def agregar_producto (s : State) (nombre : String) (costo venta : Rat) (stock : Int)
    (nextId : Int) : Except Err State :=
  if strip nombre = "" then .error .validation
  else if costo < 0 ∨ venta < 0 then .error .validation
  else if venta < costo then .error .validation
  else if s.productos.any (fun p => p.nombre == strip nombre) ∨ stock < 0 then
    .error .duplicateName
  else
    .ok { s with productos := s.productos ++
      [{ id := nextId, nombre := strip nombre, costo := costo, venta := venta, stock := stock }] }

/-- `eliminar_producto(producto_id)` from `finanzas.py`: count the sales
referencing the product; refuse if any exist; otherwise DELETE the product
row (purchases are never consulted, and with SQLite foreign keys off the
`compras` rows are left untouched). -/
def eliminar_producto (s : State) (producto_id : Int) : Except Err State :=
  if s.ventas.any (fun v => v.producto_id == producto_id) then
    .error .referentialIntegrity
  else
    .ok { s with productos := s.productos.filter (fun p => p.id != producto_id) }

/-- `actualizar_capital(efectivo, transferencia)` from `finanzas.py`: a
single UPDATE overwriting both buckets of the capital row; the table's
`CHECK(efectivo >= 0)` / `CHECK(transferencia >= 0)` constraints reject
negative values, caught and rolled back by the generic handler. -/
def actualizar_capital (s : State) (efectivo transferencia : Rat) (today : Nat) :
    Except Err State :=
  if efectivo < 0 ∨ transferencia < 0 then .error .checkViolation
  else .ok { s with capital := { efectivo := efectivo, transferencia := transferencia,
                                 fecha_actualizacion := today } }

/-- The two stock-mutating operations, for reasoning about sequences. -/
inductive Op where
  | venta (producto_id cantidad mermas : Int) (metodo : Metodo) (today : Nat)
  | compra (producto_id cantidad : Int) (costo_unitario : Rat) (metodo_pago : Metodo) (today : Nat)

/-- Run one operation; on failure the Python code has rolled back, so the
state is unchanged. -/
def step (s : State) (op : Op) : State :=
  match op with
  | .venta producto_id cantidad mermas metodo today =>
    match registrar_venta s producto_id cantidad mermas metodo today with
    | .ok (_, s') => s'
    | .error _ => s
  | .compra producto_id cantidad costo_unitario metodo_pago today =>
    match registrar_compra s producto_id cantidad costo_unitario metodo_pago today with
    | .ok (_, s') => s'
    | .error _ => s

/-- Run a sequence of sale/purchase operations. -/
def run (s : State) (ops : List Op) : State :=
  ops.foldl step s

/-- Every product row carrying the given id has non-negative stock. -/
abbrev stockOk (s : State) (pid : Int) : Prop :=
  ∀ p ∈ s.productos, p.id = pid → 0 ≤ p.stock

/-- A row of the `obtener_ventas_periodo` data frame:
`SELECT p.nombre, p.costo, p.venta, v.vendidos, v.mermas, v.metodo
 FROM ventas v JOIN productos p ON v.producto_id = p.id
 WHERE v.fecha >= ?`. -/
structure VentaRow where
  nombre : String
  costo : Rat
  venta : Rat
  vendidos : Int
  mermas : Int
  metodo : Metodo
deriving DecidableEq

/-- `obtener_ventas_periodo(fecha_inicio)` from `finanzas.py`: the inner
join of the sales dated `>= fecha_inicio` with the product catalog, each
joined row carrying the product's current `costo` and `venta`. -/
def obtener_ventas_periodo (s : State) (fecha_inicio : Nat) : List VentaRow :=
  (s.ventas.filter (fun v => fecha_inicio ≤ v.fecha)).filterMap fun v =>
    (s.productos.find? (fun p => p.id == v.producto_id)).map fun p =>
      { nombre := p.nombre, costo := p.costo, venta := p.venta,
        vendidos := v.vendidos, mermas := v.mermas, metodo := v.metodo }

/-- `inversion_total` as computed in the BALANCE tab:
`(df_ventas['vendidos'] * df_ventas['costo']).sum()`. -/
def inversion_total (s : State) (fecha_inicio : Nat) : Rat :=
  ((obtener_ventas_periodo s fecha_inicio).map fun r => (r.vendidos : Rat) * r.costo).sum

/-- `venta_total` as computed in the BALANCE tab:
`(df_ventas['vendidos'] * df_ventas['venta']).sum()`. -/
def venta_total (s : State) (fecha_inicio : Nat) : Rat :=
  ((obtener_ventas_periodo s fecha_inicio).map fun r => (r.vendidos : Rat) * r.venta).sum

/-- `ganancia_total = venta_total - inversion_total` from the BALANCE tab. -/
def ganancia_total (s : State) (fecha_inicio : Nat) : Rat :=
  venta_total s fecha_inicio - inversion_total s fecha_inicio

/-- Stated from the spec's words, for comparison with `inversion_total`:
`total_invested = Σ(quantity_sold × unit_cost)` over the sales in the
window, where `unit_cost` is the *current* `Product.cost` looked up in the
catalog. -/
def specTotalInvested (s : State) (fecha_inicio : Nat) : Rat :=
  ((s.ventas.filter (fun v => fecha_inicio ≤ v.fecha)).map fun v =>
    ((s.productos.find? (fun p => p.id == v.producto_id)).map
      (fun p => (v.vendidos : Rat) * p.costo)).getD 0).sum

/-- Stated from the spec's words, for comparison with `venta_total`:
`total_sold = Σ(quantity_sold × sale_price)` over the sales in the window,
`sale_price` being the current `Product.sale_price`. -/
def specTotalSold (s : State) (fecha_inicio : Nat) : Rat :=
  ((s.ventas.filter (fun v => fecha_inicio ≤ v.fecha)).map fun v =>
    ((s.productos.find? (fun p => p.id == v.producto_id)).map
      (fun p => (v.vendidos : Rat) * p.venta)).getD 0).sum

/-! Theorems -/

/-- Witness state shared by several concrete instantiations: one product
"Widget" (cost 1, sale price 2, stock 10), no sales, no purchases, capital
100 in cash and 0 in transfer. -/
def wState : State :=
  { productos := [{ id := 1, nombre := "Widget", costo := 1, venta := 2, stock := 10 }],
    ventas := [], compras := [],
    capital := { efectivo := 100, transferencia := 0, fecha_actualizacion := 0 } }

/-- C2: a sale of more units than the product's current stock fails with
the insufficient-stock message reporting the available stock, and the
rolled-back transaction leaves the whole state (sales rows, stock,
capital) unchanged. -/
theorem registrar_venta_insufficient_stock (s : State) (p : Producto)
    (producto_id cantidad mermas : Int) (metodo : Metodo) (today : Nat)
    (hfind : s.productos.find? (fun q => q.id == producto_id) = some p)
    (hgt : p.stock < cantidad) :
    registrar_venta s producto_id cantidad mermas metodo today =
      .error (.insufficientStock p.stock) ∧
    step s (Op.venta producto_id cantidad mermas metodo today) = s := by
  have h1 : registrar_venta s producto_id cantidad mermas metodo today =
      .error (.insufficientStock p.stock) := by
    unfold registrar_venta
    rw [hfind]
    simp [hgt]
  refine ⟨h1, ?_⟩
  simp only [step, h1]

/-- C2 witness: selling 12 Widgets from stock 10 fails reporting 10
available and changes nothing. -/
theorem registrar_venta_insufficient_stock_witness :
    registrar_venta wState 1 12 0 .efectivo 5 = .error (.insufficientStock 10) ∧
    step wState (Op.venta 1 12 0 .efectivo 5) = wState :=
  registrar_venta_insufficient_stock wState
    { id := 1, nombre := "Widget", costo := 1, venta := 2, stock := 10 }
    1 12 0 .efectivo 5 (by rfl) (by decide)

/-- C3: a sale of at most the current stock (of a positive quantity, with a
non-negative `mermas` count, as the sale form guarantees and the `ventas`
CHECK constraints require) succeeds: it returns the new stock
`stock - cantidad`, appends exactly one sale row dated today that stores
`mermas` untouched, updates the sold product's stock to `stock - cantidad`
(the `mermas` argument never enters the stock arithmetic), and leaves the
purchase rows and the capital record unchanged. -/
theorem registrar_venta_success (s : State) (p : Producto)
    (producto_id cantidad mermas : Int) (metodo : Metodo) (today : Nat)
    (hfind : s.productos.find? (fun q => q.id == producto_id) = some p)
    (hpos : 0 < cantidad) (hm : 0 ≤ mermas) (hle : cantidad ≤ p.stock) :
    registrar_venta s producto_id cantidad mermas metodo today =
      .ok (p.stock - cantidad,
        { s with
          ventas := s.ventas ++ [{ fecha := today, producto_id := producto_id,
                                   vendidos := cantidad, mermas := mermas, metodo := metodo }],
          productos := s.productos.map fun q =>
            if q.id == producto_id then { q with stock := p.stock - cantidad } else q }) := by
  unfold registrar_venta
  rw [hfind]
  have h1 : ¬ p.stock < cantidad := not_lt.mpr hle
  have h2 : 0 < cantidad ∧ 0 ≤ mermas := ⟨hpos, hm⟩
  have h3 : ¬ p.stock - cantidad < 0 := by omega
  simp [h1, h2, h3]

/-- C3 witness: the spec scenario — selling 4 Widgets with 1 merma from
stock 10 succeeds, leaves stock 6 (the merma does not reduce stock
further), stores the merma on the sale row, and touches neither purchases
nor capital. -/
theorem registrar_venta_success_witness :
    registrar_venta wState 1 4 1 .transferencia 5 =
      .ok (6,
        { productos := [{ id := 1, nombre := "Widget", costo := 1, venta := 2, stock := 6 }],
          ventas := [{ fecha := 5, producto_id := 1, vendidos := 4, mermas := 1,
                       metodo := .transferencia }],
          compras := [],
          capital := { efectivo := 100, transferencia := 0, fecha_actualizacion := 0 } }) := by
  have h := registrar_venta_success wState
    { id := 1, nombre := "Widget", costo := 1, venta := 2, stock := 10 }
    1 4 1 .transferencia 5 (by rfl) (by decide) (by decide) (by decide)
  exact h

/-- C4: a purchase whose total `cantidad * costo_unitario` fits in the
capital bucket matching the payment method (with a positive quantity and
non-negative unit cost, as the purchase form guarantees and the `compras`
CHECK constraints require, on a state whose stock and buckets are
non-negative as the schema guarantees) succeeds: it appends exactly one
purchase row carrying that total, raises the product's stock by
`cantidad`, debits exactly the matching bucket by the total, and leaves
the sales rows unchanged. -/
theorem registrar_compra_success (s : State) (p : Producto)
    (producto_id cantidad : Int) (costo_unitario : Rat) (metodo_pago : Metodo) (today : Nat)
    (hfind : s.productos.find? (fun q => q.id == producto_id) = some p)
    (hq : 0 < cantidad) (hc : 0 ≤ costo_unitario)
    (hcap : (cantidad : Rat) * costo_unitario ≤ bucket s.capital metodo_pago)
    (hstock : 0 ≤ p.stock)
    (hef : 0 ≤ s.capital.efectivo) (htr : 0 ≤ s.capital.transferencia) :
    registrar_compra s producto_id cantidad costo_unitario metodo_pago today =
      .ok ((p.stock + cantidad, (cantidad : Rat) * costo_unitario),
        { s with
          compras := s.compras ++ [{ fecha := today, producto_id := producto_id,
                                     cantidad := cantidad, costo_unitario := costo_unitario,
                                     total := (cantidad : Rat) * costo_unitario,
                                     metodo_pago := metodo_pago }],
          productos := s.productos.map fun q =>
            if q.id == producto_id then { q with stock := p.stock + cantidad } else q,
          capital := debit s.capital metodo_pago ((cantidad : Rat) * costo_unitario) today }) := by
  have htot : 0 ≤ (cantidad : Rat) * costo_unitario := by
    have : (0 : Rat) ≤ (cantidad : Rat) := by exact_mod_cast le_of_lt hq
    exact mul_nonneg this hc
  have h1 : ¬ bucket s.capital metodo_pago < (cantidad : Rat) * costo_unitario :=
    not_lt.mpr hcap
  have h2 : 0 < cantidad ∧ 0 ≤ costo_unitario ∧ 0 ≤ (cantidad : Rat) * costo_unitario :=
    ⟨hq, hc, htot⟩
  have h3 : ¬ p.stock + cantidad < 0 := by omega
  have h4 : ¬ ((debit s.capital metodo_pago ((cantidad : Rat) * costo_unitario) today).efectivo < 0 ∨
      (debit s.capital metodo_pago ((cantidad : Rat) * costo_unitario) today).transferencia < 0) := by
    cases metodo_pago with
    | efectivo =>
      simp only [debit, bucket] at *
      push_neg
      constructor
      · linarith
      · exact htr
    | transferencia =>
      simp only [debit, bucket] at *
      push_neg
      constructor
      · exact hef
      · linarith
  unfold registrar_compra
  rw [hfind]
  simp [h1, h2, h3, h4]

/-- C4 witness: the spec round trip — on a product starting at stock 0
with cash capital 100, buying 5 units at 2.0 cash and then 3 units at 2.0
cash leaves stock 8 and cash capital 84, each purchase row carrying its
total (10 and 6). -/
theorem registrar_compra_success_witness :
    registrar_compra
      { productos := [{ id := 1, nombre := "Widget", costo := 1, venta := 2, stock := 0 }],
        ventas := [], compras := [],
        capital := { efectivo := 100, transferencia := 0, fecha_actualizacion := 0 } }
      1 5 2 .efectivo 7 =
      .ok ((5, 10),
        { productos := [{ id := 1, nombre := "Widget", costo := 1, venta := 2, stock := 5 }],
          ventas := [],
          compras := [{ fecha := 7, producto_id := 1, cantidad := 5, costo_unitario := 2,
                        total := 10, metodo_pago := .efectivo }],
          capital := { efectivo := 90, transferencia := 0, fecha_actualizacion := 7 } }) ∧
    registrar_compra
      { productos := [{ id := 1, nombre := "Widget", costo := 1, venta := 2, stock := 5 }],
        ventas := [],
        compras := [{ fecha := 7, producto_id := 1, cantidad := 5, costo_unitario := 2,
                      total := 10, metodo_pago := .efectivo }],
        capital := { efectivo := 90, transferencia := 0, fecha_actualizacion := 7 } }
      1 3 2 .efectivo 7 =
      .ok ((8, 6),
        { productos := [{ id := 1, nombre := "Widget", costo := 1, venta := 2, stock := 8 }],
          ventas := [],
          compras := [{ fecha := 7, producto_id := 1, cantidad := 5, costo_unitario := 2,
                        total := 10, metodo_pago := .efectivo },
                      { fecha := 7, producto_id := 1, cantidad := 3, costo_unitario := 2,
                        total := 6, metodo_pago := .efectivo }],
          capital := { efectivo := 84, transferencia := 0, fecha_actualizacion := 7 } }) := by
  constructor
  · have h := registrar_compra_success
      { productos := [{ id := 1, nombre := "Widget", costo := 1, venta := 2, stock := 0 }],
        ventas := [], compras := [],
        capital := { efectivo := 100, transferencia := 0, fecha_actualizacion := 0 } }
      { id := 1, nombre := "Widget", costo := 1, venta := 2, stock := 0 }
      1 5 2 .efectivo 7 (by rfl) (by decide) (by norm_num) (by norm_num [bucket])
      (by decide) (by norm_num) (by norm_num)
    rw [h]
    norm_num [debit]
  · have h := registrar_compra_success
      { productos := [{ id := 1, nombre := "Widget", costo := 1, venta := 2, stock := 5 }],
        ventas := [],
        compras := [{ fecha := 7, producto_id := 1, cantidad := 5, costo_unitario := 2,
                      total := 10, metodo_pago := .efectivo }],
        capital := { efectivo := 90, transferencia := 0, fecha_actualizacion := 7 } }
      { id := 1, nombre := "Widget", costo := 1, venta := 2, stock := 5 }
      1 3 2 .efectivo 7 (by rfl) (by decide) (by norm_num) (by norm_num [bucket])
      (by decide) (by norm_num) (by norm_num)
    rw [h]
    norm_num [debit]

/-- C5: a purchase whose total `cantidad * costo_unitario` strictly
exceeds the capital bucket matching the payment method fails with the
insufficient-capital message reporting that bucket's balance, and the
state (purchase rows, stock, both buckets) is unchanged. -/
theorem registrar_compra_insufficient_capital (s : State)
    (producto_id cantidad : Int) (costo_unitario : Rat) (metodo_pago : Metodo) (today : Nat)
    (hcap : bucket s.capital metodo_pago < (cantidad : Rat) * costo_unitario) :
    registrar_compra s producto_id cantidad costo_unitario metodo_pago today =
      .error (.insufficientCapital (bucket s.capital metodo_pago)) ∧
    step s (Op.compra producto_id cantidad costo_unitario metodo_pago today) = s := by
  have h1 : registrar_compra s producto_id cantidad costo_unitario metodo_pago today =
      .error (.insufficientCapital (bucket s.capital metodo_pago)) := by
    unfold registrar_compra
    simp [hcap]
  exact ⟨h1, by simp only [step, h1]⟩

/-- C5 witness: buying 3 units at 2.0 by transfer with only 5 in the
transfer bucket fails reporting 5 available and changes nothing. -/
theorem registrar_compra_insufficient_capital_witness :
    registrar_compra
      { productos := [{ id := 1, nombre := "Widget", costo := 1, venta := 2, stock := 0 }],
        ventas := [], compras := [],
        capital := { efectivo := 100, transferencia := 5, fecha_actualizacion := 0 } }
      1 3 2 .transferencia 7 = .error (.insufficientCapital 5) ∧
    step
      { productos := [{ id := 1, nombre := "Widget", costo := 1, venta := 2, stock := 0 }],
        ventas := [], compras := [],
        capital := { efectivo := 100, transferencia := 5, fecha_actualizacion := 0 } }
      (Op.compra 1 3 2 .transferencia 7) =
      { productos := [{ id := 1, nombre := "Widget", costo := 1, venta := 2, stock := 0 }],
        ventas := [], compras := [],
        capital := { efectivo := 100, transferencia := 5, fecha_actualizacion := 0 } } :=
  registrar_compra_insufficient_capital
    { productos := [{ id := 1, nombre := "Widget", costo := 1, venta := 2, stock := 0 }],
      ventas := [], compras := [],
      capital := { efectivo := 100, transferencia := 5, fecha_actualizacion := 0 } }
    1 3 2 .transferencia 7 (by norm_num [bucket])

/-- Any successful `registrar_venta` writes a non-negative stock value and
touches no other product row (the guard `cantidad > stock_actual` and the
`CHECK(stock >= 0)` on the UPDATE make the written value non-negative). -/
theorem registrar_venta_ok_productos (s : State) (producto_id cantidad mermas : Int)
    (metodo : Metodo) (today : Nat) (n : Int) (s' : State)
    (h : registrar_venta s producto_id cantidad mermas metodo today = .ok (n, s')) :
    0 ≤ n ∧ s'.productos = s.productos.map fun q =>
      if q.id == producto_id then { q with stock := n } else q := by
  unfold registrar_venta at h
  split at h
  · exact absurd h (by simp)
  · split at h
    · exact absurd h (by simp)
    · split at h
      · exact absurd h (by simp)
      · split at h
        · exact absurd h (by simp)
        · rename_i p hfind hgt hchk hneg
          rw [Except.ok.injEq, Prod.mk.injEq] at h
          obtain ⟨hn, hs⟩ := h
          subst hn
          subst hs
          exact ⟨by omega, rfl⟩

/-- Any successful `registrar_compra` writes a non-negative stock value
and touches no other product row (enforced by the `CHECK(stock >= 0)` on
the UPDATE). -/
theorem registrar_compra_ok_productos (s : State) (producto_id cantidad : Int)
    (costo_unitario : Rat) (metodo_pago : Metodo) (today : Nat) (n : Int) (t : Rat) (s' : State)
    (h : registrar_compra s producto_id cantidad costo_unitario metodo_pago today =
      .ok ((n, t), s')) :
    0 ≤ n ∧ s'.productos = s.productos.map fun q =>
      if q.id == producto_id then { q with stock := n } else q := by
  unfold registrar_compra at h
  split at h
  · exact absurd h (by simp)
  · split at h
    · exact absurd h (by simp)
    · split at h
      · exact absurd h (by simp)
      · rename_i p hfind
        split at h
        · exact absurd h (by simp)
        · split at h
          · exact absurd h (by simp)
          · rename_i hneg hcapchk
            rw [Except.ok.injEq, Prod.mk.injEq] at h
            obtain ⟨hn, hs⟩ := h
            rw [Prod.mk.injEq] at hn
            obtain ⟨hn, -⟩ := hn
            subst hn
            subst hs
            exact ⟨by omega, rfl⟩

/-- One sale or purchase step preserves non-negativity of the tracked
product's stock. -/
theorem step_preserves_stockOk (s : State) (pid : Int) (op : Op)
    (h : stockOk s pid) : stockOk (step s op) pid := by
  have key : ∀ (target n : Int) (rest : State),
      0 ≤ n →
      rest.productos = (s.productos.map fun q =>
        if q.id == target then { q with stock := n } else q) →
      stockOk rest pid := by
    intro target n rest hn hrest p hp hpid
    rw [hrest] at hp
    obtain ⟨q, hq, hfq⟩ := List.mem_map.mp hp
    by_cases hid : q.id == target
    · rw [if_pos hid] at hfq
      rw [← hfq]
      exact hn
    · rw [if_neg hid] at hfq
      subst hfq
      exact h q hq hpid
  cases op with
  | venta producto_id cantidad mermas metodo today =>
    cases hr : registrar_venta s producto_id cantidad mermas metodo today with
    | error e =>
      simp only [step, hr]
      exact h
    | ok v =>
      obtain ⟨n, s'⟩ := v
      obtain ⟨hn, hs⟩ := registrar_venta_ok_productos s producto_id cantidad mermas metodo today n s' hr
      simp only [step, hr]
      exact key producto_id n s' hn hs
  | compra producto_id cantidad costo_unitario metodo_pago today =>
    cases hr : registrar_compra s producto_id cantidad costo_unitario metodo_pago today with
    | error e =>
      simp only [step, hr]
      exact h
    | ok v =>
      obtain ⟨⟨n, t⟩, s'⟩ := v
      obtain ⟨hn, hs⟩ :=
        registrar_compra_ok_productos s producto_id cantidad costo_unitario metodo_pago today n t s' hr
      simp only [step, hr]
      exact key producto_id n s' hn hs

/-- C1: starting from a state in which a product's stock is non-negative,
the stock of that product stays non-negative after every operation of any
sequence of `registrar_venta` / `registrar_compra` calls (a prefix of a
sequence is a sequence, so this gives the bound after each step). -/
theorem stock_nonneg_after_ops (s : State) (pid : Int) (ops : List Op)
    (h : stockOk s pid) : stockOk (run s ops) pid := by
  induction ops generalizing s with
  | nil => exact h
  | cons op ops ih => exact ih (step s op) (step_preserves_stockOk s pid op h)

/-- C1 witness: from the Widget state, a sale of 4 followed by a purchase
of 5 and a rejected over-sale of 100 keep Widget's stock non-negative. -/
theorem stock_nonneg_after_ops_witness :
    stockOk (run wState [Op.venta 1 4 1 .transferencia 5, Op.compra 1 5 2 .efectivo 7,
                         Op.venta 1 100 0 .efectivo 8]) 1 :=
  stock_nonneg_after_ops wState 1
    [Op.venta 1 4 1 .transferencia 5, Op.compra 1 5 2 .efectivo 7, Op.venta 1 100 0 .efectivo 8]
    (by decide)

/-- C6: for a non-negative initial stock (as the form's `min_value=0` and
the column CHECK guarantee), `agregar_producto` fails with the validation
message when the trimmed name is empty, the cost or the sale price is
negative, or the sale price is below the cost; fails with the
duplicate-name message when a product with the trimmed name already
exists; and otherwise succeeds, appending exactly one product row whose
stock is the given initial stock. -/
theorem agregar_producto_spec (s : State) (nombre : String) (costo venta : Rat)
    (stock nextId : Int) (hstock : 0 ≤ stock) :
    (strip nombre = "" ∨ costo < 0 ∨ venta < 0 ∨ venta < costo →
      agregar_producto s nombre costo venta stock nextId = .error .validation) ∧
    (¬ (strip nombre = "" ∨ costo < 0 ∨ venta < 0 ∨ venta < costo) →
      s.productos.any (fun p => p.nombre == strip nombre) = true →
      agregar_producto s nombre costo venta stock nextId = .error .duplicateName) ∧
    (¬ (strip nombre = "" ∨ costo < 0 ∨ venta < 0 ∨ venta < costo) →
      s.productos.any (fun p => p.nombre == strip nombre) = false →
      agregar_producto s nombre costo venta stock nextId =
        .ok { s with productos := s.productos ++
          [{ id := nextId, nombre := strip nombre, costo := costo, venta := venta,
             stock := stock }] }) := by
  unfold agregar_producto
  refine ⟨?_, ?_, ?_⟩
  · intro hbad
    split
    · rfl
    · split
      · rfl
      · split
        · rfl
        · rename_i h1 h2 h3
          exfalso
          rcases hbad with h | h | h | h
          · exact h1 h
          · exact h2 (Or.inl h)
          · exact h2 (Or.inr h)
          · exact h3 h
  · intro hok hdup
    push_neg at hok
    obtain ⟨h1, h2, h3, h4⟩ := hok
    rw [if_neg h1, if_neg (by push_neg; exact ⟨h2, h3⟩), if_neg (not_lt.mpr h4),
      if_pos (Or.inl hdup)]
  · intro hok hdup
    push_neg at hok
    obtain ⟨h1, h2, h3, h4⟩ := hok
    rw [if_neg h1, if_neg (by push_neg; exact ⟨h2, h3⟩), if_neg (not_lt.mpr h4),
      if_neg (not_or.mpr ⟨by simp [hdup], not_lt.mpr hstock⟩)]

/-- C6 witness: adding "Coffee" (cost 1, price 2, stock 3) to the Widget
catalog succeeds with the row holding stock 3; with the spec's validation
and duplicate arms exercised on the same call shape. -/
theorem agregar_producto_spec_witness :
    agregar_producto wState "Coffee" 1 2 3 2 =
      .ok { productos := [{ id := 1, nombre := "Widget", costo := 1, venta := 2, stock := 10 },
                          { id := 2, nombre := "Coffee", costo := 1, venta := 2, stock := 3 }],
            ventas := [], compras := [],
            capital := { efectivo := 100, transferencia := 0, fecha_actualizacion := 0 } } := by
  have h := (agregar_producto_spec wState "Coffee" 1 2 3 2 (by decide)).2.2
    (by push_neg; exact ⟨by decide, by norm_num, by norm_num, by norm_num⟩)
    (by decide)
  rw [h]
  rfl

/-- C7: `eliminar_producto` fails with the referential-integrity message
when at least one sale row references the product id, and when no sale
row references it the product row is deleted unconditionally (purchase
rows are never consulted). -/
theorem eliminar_producto_spec (s : State) (producto_id : Int) :
    (s.ventas.any (fun v => v.producto_id == producto_id) = true →
      eliminar_producto s producto_id = .error .referentialIntegrity) ∧
    (s.ventas.any (fun v => v.producto_id == producto_id) = false →
      eliminar_producto s producto_id =
        .ok { s with productos := s.productos.filter fun p => p.id != producto_id }) := by
  unfold eliminar_producto
  constructor
  · intro h
    rw [if_pos h]
  · intro h
    rw [if_neg (by simp [h])]

/-- C7 witness: deleting Widget is refused once a sale references it, and
succeeds (removing the row) from the sale-free state. -/
theorem eliminar_producto_spec_witness :
    eliminar_producto
      { wState with
        ventas := [{ fecha := 3, producto_id := 1, vendidos := 4, mermas := 0,
                     metodo := .efectivo }] } 1 = .error .referentialIntegrity ∧
    eliminar_producto wState 1 =
      .ok { productos := [], ventas := [], compras := [],
            capital := { efectivo := 100, transferencia := 0, fecha_actualizacion := 0 } } :=
  ⟨(eliminar_producto_spec
      { wState with
        ventas := [{ fecha := 3, producto_id := 1, vendidos := 4, mermas := 0,
                     metodo := .efectivo }] } 1).1 (by decide),
   (eliminar_producto_spec wState 1).2 (by decide)⟩

/-- C8: `actualizar_capital` with a negative cash or transfer value is
rejected by the capital table's CHECK constraints (the rolled-back
transaction leaves both buckets unchanged), and with non-negative values
it succeeds, overwriting both buckets with exactly the given values
whatever balances the state held before (an overwrite, not an addition). -/
theorem actualizar_capital_spec (s : State) (e t : Rat) (today : Nat) :
    (e < 0 ∨ t < 0 → actualizar_capital s e t today = .error .checkViolation) ∧
    (0 ≤ e → 0 ≤ t → actualizar_capital s e t today =
      .ok { s with capital := { efectivo := e, transferencia := t,
                                fecha_actualizacion := today } }) := by
  unfold actualizar_capital
  constructor
  · intro h
    rw [if_pos h]
  · intro he ht
    rw [if_neg (not_or.mpr ⟨not_lt.mpr he, not_lt.mpr ht⟩)]

/-- C8 witness: setting (-1, 0) fails; setting (30, 40) from balances
(100, 0) overwrites to exactly (30, 40) rather than adding. -/
theorem actualizar_capital_spec_witness :
    actualizar_capital wState (-1) 0 9 = .error .checkViolation ∧
    actualizar_capital wState 30 40 9 =
      .ok { productos := [{ id := 1, nombre := "Widget", costo := 1, venta := 2, stock := 10 }],
            ventas := [], compras := [],
            capital := { efectivo := 30, transferencia := 40, fecha_actualizacion := 9 } } :=
  ⟨(actualizar_capital_spec wState (-1) 0 9).1 (by norm_num),
   (actualizar_capital_spec wState 30 40 9).2 (by norm_num) (by norm_num)⟩

/-- C10: when no sale references a product, `eliminar_producto` succeeds
even though purchase rows do reference it (the guard only counts sales,
never purchases, and SQLite's unenforced foreign keys let the rows stay):
the purchase rows survive verbatim, still referencing the product id,
while no product row with that id remains. -/
theorem eliminar_producto_ignores_compras (s : State) (producto_id : Int)
    (hv : s.ventas.any (fun v => v.producto_id == producto_id) = false)
    (hc : s.compras.any (fun c => c.producto_id == producto_id) = true) :
    eliminar_producto s producto_id =
      .ok { s with productos := s.productos.filter fun p => p.id != producto_id } ∧
    ({ s with productos := s.productos.filter fun p => p.id != producto_id } : State).compras =
      s.compras ∧
    ({ s with productos := s.productos.filter fun p => p.id != producto_id } : State).compras.any
      (fun c => c.producto_id == producto_id) = true ∧
    (({ s with productos := s.productos.filter fun p => p.id != producto_id } : State).productos.all
      fun p => p.id != producto_id) = true := by
  refine ⟨?_, rfl, hc, ?_⟩
  · unfold eliminar_producto
    rw [if_neg (by simp [hv])]
  · rw [List.all_eq_true]
    intro p hp
    exact (List.mem_filter.mp hp).2

/-- C10 witness: Widget has a purchase recorded but no sale; deleting it
succeeds, the purchase row stays behind referencing the deleted id 1, and
no product with id 1 survives. -/
theorem eliminar_producto_ignores_compras_witness :
    eliminar_producto
      { wState with
        compras := [{ fecha := 7, producto_id := 1, cantidad := 5, costo_unitario := 2,
                      total := 10, metodo_pago := .efectivo }] } 1 =
      .ok { productos := [], ventas := [],
            compras := [{ fecha := 7, producto_id := 1, cantidad := 5, costo_unitario := 2,
                          total := 10, metodo_pago := .efectivo }],
            capital := { efectivo := 100, transferencia := 0, fecha_actualizacion := 0 } } ∧
    ([({ fecha := 7, producto_id := 1, cantidad := 5, costo_unitario := 2,
         total := 10, metodo_pago := .efectivo } : Compra)].any
      fun c => c.producto_id == (1 : Int)) = true :=
  ⟨((eliminar_producto_ignores_compras
      { wState with
        compras := [{ fecha := 7, producto_id := 1, cantidad := 5, costo_unitario := 2,
                      total := 10, metodo_pago := .efectivo }] } 1
      (by decide) (by decide)).1 :),
   (eliminar_producto_ignores_compras
      { wState with
        compras := [{ fecha := 7, producto_id := 1, cantidad := 5, costo_unitario := 2,
                      total := 10, metodo_pago := .efectivo }] } 1
      (by decide) (by decide)).2.2.1⟩

/-- The Widget state with one sale of 4 units dated day 3 recorded. -/
def wsSale : State :=
  { wState with
    ventas := [{ fecha := 3, producto_id := 1, vendidos := 4, mermas := 0,
                 metodo := .efectivo }] }

/-- Summing a function over a `filterMap` whose option is always `some`
equals summing the defaulted values over the original list. -/
theorem sum_map_filterMap {α β : Type} (l : List α) (F : α → Option β) (g : β → Rat)
    (h : ∀ a ∈ l, (F a).isSome = true) :
    ((l.filterMap F).map g).sum = (l.map fun a => ((F a).map g).getD 0).sum := by
  induction l with
  | nil => rfl
  | cons a l ih =>
    obtain ⟨b, hb⟩ := Option.isSome_iff_exists.mp (h a (List.mem_cons_self a l))
    simp only [List.filterMap_cons, hb, List.map_cons, List.sum_cons, Option.map_some',
      Option.getD_some]
    rw [ih fun x hx => h x (List.mem_cons_of_mem a hx)]

/-- C9: when every sale in the store resolves to a product (which the
referential guard of `eliminar_producto` maintains), the BALANCE tab's
aggregates agree with the spec's formulas: `inversion_total` is
Σ(quantity_sold × current Product.cost) over the window, `venta_total` is
Σ(quantity_sold × current Product.sale_price), `ganancia_total` is their
difference, and `inversion_total` never reads the purchase history (so the
historical `costo_unitario` recorded on purchases plays no part). -/
theorem reporte_periodo_spec (s : State) (fecha_inicio : Nat)
    (h : ∀ v ∈ s.ventas,
      (s.productos.find? (fun p => p.id == v.producto_id)).isSome = true) :
    inversion_total s fecha_inicio = specTotalInvested s fecha_inicio ∧
    venta_total s fecha_inicio = specTotalSold s fecha_inicio ∧
    ganancia_total s fecha_inicio =
      venta_total s fecha_inicio - inversion_total s fecha_inicio ∧
    ∀ l : List Compra,
      inversion_total { s with compras := l } fecha_inicio = inversion_total s fecha_inicio := by
  have hf : ∀ v ∈ s.ventas.filter (fun v => fecha_inicio ≤ v.fecha),
      (s.productos.find? (fun p => p.id == v.producto_id)).isSome = true :=
    fun v hv => h v (List.mem_filter.mp hv).1
  refine ⟨?_, ?_, rfl, fun l => rfl⟩
  · unfold inversion_total obtener_ventas_periodo specTotalInvested
    rw [sum_map_filterMap _ _ _ (by
      intro v hv
      simpa using hf v hv)]
    simp only [Option.map_map]
    rfl
  · unfold venta_total obtener_ventas_periodo specTotalSold
    rw [sum_map_filterMap _ _ _ (by
      intro v hv
      simpa using hf v hv)]
    simp only [Option.map_map]
    rfl

/-- C9 witness: one Widget sale of 4 dated day 3 gives, from day 0,
invested 4, sold 8 and profit 4; replacing the purchase history changes
nothing. -/
theorem reporte_periodo_spec_witness :
    inversion_total wsSale 0 = specTotalInvested wsSale 0 ∧
    venta_total wsSale 0 = specTotalSold wsSale 0 ∧
    ganancia_total wsSale 0 = venta_total wsSale 0 - inversion_total wsSale 0 ∧
    inversion_total
      { wsSale with
        compras := [{ fecha := 2, producto_id := 1, cantidad := 9, costo_unitario := 50,
                      total := 450, metodo_pago := .efectivo }] } 0 =
      inversion_total wsSale 0 := by
  have h := reporte_periodo_spec wsSale 0 (by decide)
  exact ⟨h.1, h.2.1, h.2.2.1,
    h.2.2.2 [{ fecha := 2, producto_id := 1, cantidad := 9, costo_unitario := 50,
               total := 450, metodo_pago := .efectivo }]⟩

end Finanzas
